import Mathlib

/-!
Shallow embedding of `src/index.py` (class `UbuntuImageFetcher`) and proofs
about the claims of its specification.

Modelling conventions:
* Byte strings are `List Nat`.
* Library calls from outside the repository (`hashlib.md5(...)`,
  `mimetypes.guess_extension`, the float formatting of the success message)
  are abstract function parameters bundled in `ExternalFns`; the proofs hold
  for every instantiation.
* The network is an oracle (`FetchEnv`): the outcome of the HEAD probe and of
  the GET request are data the theorems quantify over.
* The filesystem is an association list from paths to byte strings; a write
  error raised by `os.makedirs`/`open`/`write` (caught by the code's generic
  `except Exception`) is modelled by the flag `FetchEnv.writeOk = false`.
* `urlparse(url).path` is environment data (`FetchEnv.urlPath`), since URL
  parsing happens outside the repository.
-/

set_option autoImplicit false

namespace UbuntuFetcher

/-- Raw byte content, one `Nat` per byte. -/
abbrev Bytes := List Nat

/-- Boolean test that `n` is a leading segment of `l` (character lists). -/
def startsList : List Char → List Char → Bool
  | [], _ => true
  | _ :: _, [] => false
  | a :: as, b :: bs => a == b && startsList as bs

/-- Boolean test that `n` occurs contiguously inside `l`; models Python's
`n in l` on strings. -/
def withinList (n : List Char) : List Char → Bool
  | [] => startsList n []
  | c :: t => startsList n (c :: t) || withinList n t

/-- Python `needle in haystack` for strings. -/
def pyIn (needle haystack : String) : Bool :=
  withinList needle.data haystack.data

/-- Python `s.lower()` (character-wise lowering, faithful on ASCII). -/
def pyLower (s : String) : String :=
  String.mk (s.data.map Char.toLower)

/-- The allow-list `safe_types` from `_is_safe_content_type`. -/
def safe_types : List String :=
  ["image/jpeg", "image/jpg", "image/png", "image/gif",
   "image/webp", "image/bmp", "image/svg+xml"]

/-- Embedding of `_is_safe_content_type`: Python evaluates
`any(safe_type in content_type.lower() for safe_type in safe_types)`,
a substring containment test against the lowered input. -/
def is_safe_content_type (content_type : String) : Bool :=
  safe_types.any (fun t => withinList t.data (pyLower content_type).data)

/-- Python `content_type.split(';')[0]`: everything before the first `;`. -/
def splitSemiHead (s : String) : String :=
  String.mk (s.data.takeWhile (fun c => !(c == ';')))

/-- Validator following the spec's words (section 4.2), for comparison with
`is_safe_content_type`: true iff the type, case-insensitively and with
parameters stripped, is exactly one of the allow-listed types. -/
def spec_is_safe_content_type (ct : String) : Bool :=
  decide (pyLower (splitSemiHead ct) ∈ safe_types)

/-- Python `os.path.basename` (posix): the part of the path after the last
`/`. -/
def basename (p : String) : String :=
  String.mk ((p.data.reverse.takeWhile (fun c => !(c == '/'))).reverse)

/-- Case split of `splitextBase` on the reversed remainder after the last
dot: an empty remainder means the base name has no dot at all. -/
def splitextAux (b : List Char) : List Char → List Char × List Char
  | [] => (b, [])
  | _ :: revRoot =>
    if revRoot.reverse.any (fun c => !(c == '.')) then
      (revRoot.reverse, ('.' :: (b.reverse.takeWhile (fun c => !(c == '.'))).reverse))
    else (b, [])

/-- The part of `os.path.splitext` that acts on the base name: split at the
last `.`, provided some character before that dot (inside the base name) is
not itself a dot; otherwise the extension is empty. -/
def splitextBase (b : List Char) : List Char × List Char :=
  splitextAux b (b.reverse.dropWhile (fun c => !(c == '.')))

/-- Python `os.path.splitext` (posix): split the base name of the path into
root and extension; the directory part stays with the root. -/
def splitext (p : String) : String × String :=
  let rb := p.data.reverse
  let revBase := rb.takeWhile (fun c => !(c == '/'))
  let revDir := rb.dropWhile (fun c => !(c == '/'))
  let pr := splitextBase revBase.reverse
  (String.mk (revDir.reverse ++ pr.1), String.mk pr.2)

/-- Library calls from outside the repository, abstracted as functions:
`hashlib.md5(...).hexdigest()`, `mimetypes.guess_extension` (which returns
`None` when it has no mapping), and the `f"{len(content)/1024:.1f}"` float
rendering used in the success message. -/
structure ExternalFns where
  md5hex : Bytes → String
  guessExt : String → Option String
  fmtSize : Nat → String

/-- Embedding of `_get_file_extension`. -/
def get_file_extension (guessExt : String → Option String)
    (urlPath content_type : String) : String :=
  let filename := basename urlPath
  if pyIn "." filename then (splitext filename).2
  else (guessExt (splitSemiHead content_type)).getD ".jpg"

/-- Embedding of `_generate_filename` (its callers always pass
`original_filename=None`, so that branch is dropped). -/
def generate_filename (guessExt : String → Option String)
    (urlPath content_type : String) (timeNow : Nat) : String :=
  let base_name := basename urlPath
  if base_name = "" ∨ pyIn "." base_name = false then
    ("image_" ++ toString timeNow) ++ get_file_extension guessExt urlPath content_type
  else
    (splitext base_name).1 ++ get_file_extension guessExt urlPath content_type

/-- Headers of an HTTP response, as the code reads them:
`headers.get('content-type')` and `headers.get('content-length')` (the
latter already converted to a number; a missing header is `none`). -/
structure HttpHeaders where
  contentType : Option String
  contentLength : Option Nat
deriving DecidableEq

/-- Outcome of the full GET request: one of the `requests` exception kinds
caught by `fetch_image`, or a response (after `raise_for_status`) with its
headers and the chunk sequence that `iter_content(8192)` yields. -/
inductive GetOutcome where
  | timeout
  | connectionError
  | httpError (status : Nat)
  | requestError (msg : String)
  | success (headers : HttpHeaders) (chunks : List Bytes)
deriving DecidableEq

/-- Network and environment oracle for one `fetch_image` call.
`headOutcome = none` models a `RequestException` raised by the HEAD probe;
`urlPath` is `urlparse(url).path`; `timeNow` is `int(time.time())`;
`writeOk = false` models an `Exception` raised while creating the directory
or writing the file (caught by the outer `except Exception`), with
`writeErrMsg` the rendered exception text. -/
structure FetchEnv where
  url : String
  urlPath : String
  headOutcome : Option HttpHeaders
  getOutcome : GetOutcome
  timeNow : Nat
  writeOk : Bool
  writeErrMsg : String
deriving DecidableEq

/-- Mutable state of an `UbuntuImageFetcher` instance plus the filesystem it
touches: the output directory name, `self.downloaded_hashes` (a set, kept as
a duplicate-free list), and the files on disk as a path-to-content
association list. -/
structure FetcherState where
  directory : String
  hashes : List String
  fs : List (String × Bytes)
deriving DecidableEq

/-- Lookup of a path in the modelled filesystem. -/
def fsLookup : List (String × Bytes) → String → Option Bytes
  | [], _ => none
  | (p, c) :: rest, q => if p = q then some c else fsLookup rest q

/-- Python `os.path.exists` over the modelled filesystem. -/
def pathExists (fs : List (String × Bytes)) (p : String) : Bool :=
  (fsLookup fs p).isSome

/-- Result triple returned by `fetch_image`:
`(success: bool, message: str, filepath: str or None)`. -/
structure FetchResult where
  success : Bool
  message : String
  filepath : Option String
deriving DecidableEq

/-- The 50 MiB ceiling `50 * 1024 * 1024` from the code. -/
def maxSize : Nat := 50 * 1024 * 1024

/-- Result of the head-stage unsafe-type check at line 105. -/
def head_bad_type_result (ct : String) : FetchResult :=
  ⟨false, "❌ Not a safe image type: " ++ ct, none⟩

/-- Result of the head-stage declared-length check at line 110. -/
def head_too_large_result : FetchResult :=
  ⟨false, "❌ File too large (>50MB). Being respectful of resources.", none⟩

/-- Result of the GET-stage content-type re-validation at line 124. -/
def get_bad_type_result (ct : String) : FetchResult :=
  ⟨false, "❌ Response is not a safe image: " ++ ct, none⟩

/-- Result of the streaming size guard at line 135. -/
def stream_too_large_result : FetchResult :=
  ⟨false, "❌ File too large. Respecting bandwidth limits.", none⟩

/-- Result of the duplicate check at line 140. -/
def duplicate_result : FetchResult :=
  ⟨false, "⚠️  Image already exists (duplicate detected). Avoiding redundancy.", none⟩

/-- Result of `except requests.exceptions.Timeout`. -/
def timeout_result : FetchResult :=
  ⟨false, "⏱️  Connection timeout. Server may be busy - respecting their resources.", none⟩

/-- Result of `except requests.exceptions.ConnectionError`. -/
def connection_result : FetchResult :=
  ⟨false, "🔌 Connection failed. Network or server unavailable.", none⟩

/-- Result of `except requests.exceptions.HTTPError`. -/
def http_result (status : Nat) : FetchResult :=
  ⟨false, "🚫 HTTP Error " ++ toString status ++ ": Server declined request.", none⟩

/-- Result of `except requests.exceptions.RequestException`. -/
def request_result (msg : String) : FetchResult :=
  ⟨false, "🌐 Network error: " ++ msg, none⟩

/-- Result of the outer `except Exception` (here: a failed save step). -/
def unexpected_result (msg : String) : FetchResult :=
  ⟨false, "❌ Unexpected error: " ++ msg, none⟩

/-- Embedding of the accumulation loop over `iter_content` (lines 127-136):
skip empty chunks, add each chunk's length to the running total, abort with
`none` (the too-large return) once the total exceeds `m`, else append the
chunk to the accumulated content. -/
def read_chunks (m : Nat) : List Bytes → Nat → Bytes → Option Bytes
  | [], _, content => some content
  | chunk :: rest, size, content =>
    if chunk.isEmpty then read_chunks m rest size content
    else
      if m < size + chunk.length then none
      else read_chunks m rest (size + chunk.length) (content ++ chunk)

/-- Total number of bytes in a chunk sequence. -/
def totalSize (chunks : List Bytes) : Nat :=
  (chunks.map List.length).sum

/-- Embedding of `_check_duplicate`: compute the content hash, report a
duplicate when it is already recorded, otherwise record it. Returns the
flag together with the updated hash set. -/
def check_duplicate (md5hex : Bytes → String) (hashes : List String)
    (content : Bytes) : Bool × List String :=
  let h := md5hex content
  if h ∈ hashes then (true, hashes) else (false, h :: hashes)

/-- The filename-collision loop of lines 150-155: starting from the derived
path, try `root_1.ext`, `root_2.ext`, ... (splitting the original path) until
a path not present on disk is found. The loop is fuel-bounded; since the
candidate names are pairwise distinct, `fs.length + 1` iterations always
suffice to reach a free path. -/
def resolve_go (fs : List (String × Bytes)) (orig : String) :
    Nat → Nat → String → String
  | 0, _, fp => fp
  | Nat.succ fuel, counter, fp =>
    if pathExists fs fp then
      resolve_go fs orig fuel (counter + 1)
        (((splitext orig).1 ++ "_" ++ toString counter) ++ (splitext orig).2)
    else fp

/-- Collision resolution entry point (counter starts at 1, first candidate is
the original path itself). -/
def resolve_path (fs : List (String × Bytes)) (orig : String) : String :=
  resolve_go fs orig (fs.length + 1) 1 orig

/-- The save step of `fetch_image` (lines 142-162), entered after the
duplicate check has already recorded the new hash in `st.hashes`: on a write
error the generic handler returns the unexpected-error result (the hash
insertion is NOT rolled back); otherwise derive the filename, resolve
collisions, write the bytes and return success. -/
def save_phase (ext : ExternalFns) (env : FetchEnv) (actual : String)
    (content : Bytes) (st : FetcherState) : FetchResult × FetcherState :=
  if env.writeOk then
    let filename := generate_filename ext.guessExt env.urlPath actual env.timeNow
    let filepath := (st.directory ++ "/") ++ filename
    let final := resolve_path st.fs filepath
    (⟨true,
      (((("✅ Successfully saved: " ++ basename final) ++ " (")
        ++ ext.fmtSize content.length) ++ "KB)"),
      some final⟩,
     { st with fs := (final, content) :: st.fs })
  else (unexpected_result env.writeErrMsg, st)

/-- The GET stage of `fetch_image` (lines 117-162): dispatch on the request
outcome, re-validate the content type (falling back to the head-stage type
when the response has no content-type header), stream with the size guard,
check duplicates, save. -/
def get_phase (ext : ExternalFns) (env : FetchEnv) (content_type : String)
    (st : FetcherState) : FetchResult × FetcherState :=
  match env.getOutcome with
  | GetOutcome.timeout => (timeout_result, st)
  | GetOutcome.connectionError => (connection_result, st)
  | GetOutcome.httpError status => (http_result status, st)
  | GetOutcome.requestError m => (request_result m, st)
  | GetOutcome.success hdrs chunks =>
    let actual := hdrs.contentType.getD content_type
    if is_safe_content_type actual then
      match read_chunks maxSize chunks 0 [] with
      | none => (stream_too_large_result, st)
      | some content =>
        match check_duplicate ext.md5hex st.hashes content with
        | (true, _) => (duplicate_result, st)
        | (false, hs) => save_phase ext env actual content { st with hashes := hs }
    else (get_bad_type_result actual, st)

/-- Embedding of `fetch_image` (lines 88-173): HEAD probe first — a probe
exception falls back to the assumed type `image/jpeg`; a successful probe
validates the declared type and length — then the GET stage. -/
def fetch_image (ext : ExternalFns) (env : FetchEnv) (st : FetcherState) :
    FetchResult × FetcherState :=
  match env.headOutcome with
  | none => get_phase ext env "image/jpeg" st
  | some hh =>
    let ct := hh.contentType.getD ""
    if is_safe_content_type ct then
      match hh.contentLength with
      | some n =>
        if maxSize < n then (head_too_large_result, st)
        else get_phase ext env ct st
      | none => get_phase ext env ct st
    else (head_bad_type_result ct, st)

/-- The content type with which `fetch_image` leaves the HEAD stage:
`none` when the probe outcome makes the call return before the GET. -/
def probe_content_type (env : FetchEnv) : Option String :=
  match env.headOutcome with
  | none => some "image/jpeg"
  | some hh =>
    let ct := hh.contentType.getD ""
    if is_safe_content_type ct then
      match hh.contentLength with
      | some n => if maxSize < n then none else some ct
      | none => some ct
    else none

/-- The bytes a `fetch_image` call on `env` accumulates when it reaches the
duplicate check, and `none` when some earlier stage exits first. -/
def retrieved_content (env : FetchEnv) : Option Bytes :=
  match probe_content_type env, env.getOutcome with
  | some ct, GetOutcome.success hdrs chunks =>
    if is_safe_content_type (hdrs.contentType.getD ct) then
      read_chunks maxSize chunks 0 []
    else none
  | _, _ => none

/-- The `actual_content_type` value of lines 121-122 for a call that reaches
the GET response (empty string otherwise). -/
def effective_content_type (env : FetchEnv) : String :=
  match probe_content_type env, env.getOutcome with
  | some ct, GetOutcome.success hdrs _ => hdrs.contentType.getD ct
  | _, _ => ""

/-- Embedding of `fetch_multiple_images` (lines 175-193): run `fetch_image`
on each URL in order, threading the fetcher state, and pair each result with
its input URL (the printed progress and the politeness delay have no
observable effect on the results). -/
def fetch_multiple_images (ext : ExternalFns) :
    List FetchEnv → FetcherState → List (String × FetchResult) × FetcherState
  | [], st => ([], st)
  | e :: rest, st =>
    let pr := fetch_image ext e st
    let prs := fetch_multiple_images ext rest pr.2
    ((e.url, pr.1) :: prs.1, prs.2)

/-- Set insertion used when modelling `self.downloaded_hashes.add(...)` on a
possibly already-present hash. -/
def insertHash (h : String) (hs : List String) : List String :=
  if h ∈ hs then hs else h :: hs

/-- Embedding of `_load_existing_hashes`: when the directory exists, hash
every listed regular file and record it; files whose read raises (`none`
entries) are skipped silently. -/
def load_existing_hashes (md5hex : Bytes → String) (dirExists : Bool)
    (files : List (Option Bytes)) (hashes : List String) : List String :=
  if dirExists then
    files.foldl
      (fun hs f =>
        match f with
        | none => hs
        | some content => insertHash (md5hex content) hs)
      hashes
  else hashes

/-- The fixed text that only the GET-stage re-validation failure (line 124)
emits as the start of its message. -/
def bad_type_marker : String := "❌ Response is not a safe image: "

/-- True exactly on results whose message is the GET-stage unsafe-type
failure message (for some reported content type). -/
def is_bad_type_get_msg (r : FetchResult) : Bool :=
  startsList bad_type_marker.data r.message.data

/-! ### Concrete instances used by the witnesses -/

/-- Concrete external functions for the witnesses: the hash renders the byte
list (injective on the byte strings used below), the extension table knows
only `image/png`, and sizes are rendered as plain numbers. -/
def extW : ExternalFns where
  md5hex := fun b => toString b
  guessExt := fun ct => if ct = "image/png" then some ".png" else none
  fmtSize := fun n => toString n

/-- A fresh fetcher state over an empty output directory. -/
def stEmpty : FetcherState :=
  { directory := "Fetched_Images", hashes := [], fs := [] }

/-- A fetcher state whose registry already holds one hash. -/
def stSeed : FetcherState :=
  { directory := "Fetched_Images", hashes := ["seed"], fs := [] }

/-- Witness input for C2: the probe raises, the GET response declares no
content-type and carries three bytes. -/
def envC2 : FetchEnv :=
  { url := "u2", urlPath := "/a.png", headOutcome := none
    getOutcome := GetOutcome.success ⟨none, none⟩ [[1, 2, 3]]
    timeNow := 0, writeOk := true, writeErrMsg := "" }

/-- Counterexample input for C3: fresh content but the save step raises. -/
def envC3 : FetchEnv :=
  { url := "u3", urlPath := "/a.png", headOutcome := none
    getOutcome := GetOutcome.success ⟨none, none⟩ [[7]]
    timeNow := 0, writeOk := false, writeErrMsg := "disk full" }

/-- Witness input for C3: the probe reports a non-image type, so the call
fails before any write. -/
def envC3w : FetchEnv :=
  { url := "u3w", urlPath := "/p.pdf", headOutcome := some ⟨some "text/html", none⟩
    getOutcome := GetOutcome.timeout
    timeNow := 0, writeOk := true, writeErrMsg := "" }

/-- Witness inputs for C4: two fetches that retrieve the same single byte. -/
def envC4a : FetchEnv :=
  { url := "u4a", urlPath := "/d1.png", headOutcome := none
    getOutcome := GetOutcome.success ⟨some "image/png", none⟩ [[9]]
    timeNow := 0, writeOk := true, writeErrMsg := "" }

/-- Second witness input for C4, same retrieved bytes as `envC4a`. -/
def envC4b : FetchEnv :=
  { url := "u4b", urlPath := "/d2.png", headOutcome := none
    getOutcome := GetOutcome.success ⟨some "image/png", none⟩ [[9]]
    timeNow := 0, writeOk := true, writeErrMsg := "" }

/-- Witness input for C5: one chunk of `maxSize + 1` zero bytes. -/
def envC5 : FetchEnv :=
  { url := "u5", urlPath := "/big.png", headOutcome := none
    getOutcome := GetOutcome.success ⟨some "image/png", none⟩
      [List.replicate (maxSize + 1) 0]
    timeNow := 0, writeOk := true, writeErrMsg := "" }

/-- Witness inputs for C6: two URLs deriving the same name `test.png` with
different one-byte contents. -/
def envC6a : FetchEnv :=
  { url := "u6a", urlPath := "/i/test.png", headOutcome := none
    getOutcome := GetOutcome.success ⟨some "image/png", none⟩ [[1]]
    timeNow := 0, writeOk := true, writeErrMsg := "" }

/-- Second witness input for C6, different content, same derived name. -/
def envC6b : FetchEnv :=
  { url := "u6b", urlPath := "/j/test.png", headOutcome := none
    getOutcome := GetOutcome.success ⟨some "image/png", none⟩ [[2]]
    timeNow := 0, writeOk := true, writeErrMsg := "" }

/-- Witness inputs for C7: one succeeding and one failing fetch. -/
def envC7a : FetchEnv :=
  { url := "u7a", urlPath := "/x.png", headOutcome := none
    getOutcome := GetOutcome.success ⟨some "image/png", none⟩ [[3]]
    timeNow := 0, writeOk := true, writeErrMsg := "" }

/-- Second witness input for C7: the GET request times out. -/
def envC7b : FetchEnv :=
  { url := "u7b", urlPath := "/y.png", headOutcome := none
    getOutcome := GetOutcome.timeout
    timeNow := 0, writeOk := true, writeErrMsg := "" }

/-- Witness input for C8: failed probe, GET declares a non-image type. -/
def envC8 : FetchEnv :=
  { url := "u8", urlPath := "/doc", headOutcome := none
    getOutcome := GetOutcome.success ⟨some "application/pdf", none⟩ [[1]]
    timeNow := 0, writeOk := true, writeErrMsg := "" }

/-- Witness input for C10: a plain failing fetch. -/
def envC10 : FetchEnv :=
  { url := "u10", urlPath := "/z.png", headOutcome := none
    getOutcome := GetOutcome.connectionError
    timeNow := 0, writeOk := true, writeErrMsg := "" }

/-! ### Helper lemmas about strings and lists -/

theorem string_data_append (s t : String) : (s ++ t).data = s.data ++ t.data := by
  cases s; cases t; rfl

theorem string_eq_of_data {s t : String} (h : s.data = t.data) : s = t := by
  cases s; cases t; exact congrArg String.mk h

theorem string_length_append (s t : String) : (s ++ t).length = s.length + t.length := by
  cases s with
  | mk a =>
    cases t with
    | mk b => exact List.length_append a b

theorem startsList_iff (n : List Char) : ∀ l : List Char, startsList n l = true ↔ n <+: l := by
  induction n with
  | nil => intro l; simp [startsList, List.nil_prefix]
  | cons a as ih =>
    intro l
    cases l with
    | nil => simp [startsList, List.prefix_nil]
    | cons b bs => simp [startsList, List.cons_prefix_cons, ih, beq_iff_eq, Bool.and_eq_true]

theorem withinList_iff (n : List Char) : ∀ l : List Char, withinList n l = true ↔ n <:+: l := by
  intro l
  induction l with
  | nil => simp [withinList, startsList_iff, List.infix_nil, List.prefix_nil]
  | cons c t ih =>
    simp [withinList, Bool.or_eq_true, startsList_iff, ih, List.infix_cons_iff]

theorem withinList_of_startsList {n l : List Char} (h : startsList n l = true) :
    withinList n l = true := by
  cases l with
  | nil => exact h
  | cons c t => simp [withinList, h]

theorem startsList_takeWhile_map (f : Char → Char) (q : Char → Bool) (l : List Char) :
    startsList ((l.takeWhile q).map f) (l.map f) = true := by
  induction l with
  | nil => rfl
  | cons a t ih =>
    cases hq : q a with
    | true => simp [List.takeWhile_cons, hq, startsList, ih]
    | false => simp [List.takeWhile_cons, hq, startsList]

theorem dropWhile_head_false {q : Char → Bool} :
    ∀ (l : List Char) (a : Char) (t : List Char), l.dropWhile q = a :: t → q a = false := by
  intro l
  induction l with
  | nil => intro a t h; simp [List.dropWhile] at h
  | cons x xs ih =>
    intro a t h
    cases hx : q x with
    | true => rw [List.dropWhile_cons_of_pos hx] at h; exact ih a t h
    | false =>
      rw [List.dropWhile_cons_of_neg (by simp [hx])] at h
      cases h; exact hx

theorem splitextBase_concat (b : List Char) :
    (splitextBase b).1 ++ (splitextBase b).2 = b := by
  unfold splitextBase
  cases h : b.reverse.dropWhile (fun c => !(c == '.')) with
  | nil => simp [splitextAux]
  | cons c revRoot =>
    have hc : c = '.' := by
      have := dropWhile_head_false _ _ _ h
      simpa using this
    have hsplit : b.reverse.takeWhile (fun c => !(c == '.')) ++ (c :: revRoot) = b.reverse := by
      rw [← h]; exact List.takeWhile_append_dropWhile _ _
    have hb : b = (revRoot.reverse ++ [c]) ++ (b.reverse.takeWhile (fun c => !(c == '.'))).reverse := by
      have h2 := congrArg List.reverse hsplit
      simpa [List.reverse_append] using h2.symm
    simp only [splitextAux]
    split
    · rw [hc] at hb
      simpa [List.append_assoc] using hb.symm
    · simp

theorem splitext_concat_data (p : String) :
    (splitext p).1.data ++ (splitext p).2.data = p.data := by
  unfold splitext
  simp only []
  rw [List.append_assoc, splitextBase_concat]
  have : (p.data.reverse.dropWhile (fun c => !(c == '/'))).reverse
      ++ (p.data.reverse.takeWhile (fun c => !(c == '/'))).reverse
      = p.data := by
    rw [← List.reverse_append, List.takeWhile_append_dropWhile, List.reverse_reverse]
  exact this

theorem splitext_concat (p : String) : (splitext p).1 ++ (splitext p).2 = p := by
  apply string_eq_of_data
  rw [string_data_append]
  exact splitext_concat_data p

theorem splitext_length (p : String) :
    (splitext p).1.length + (splitext p).2.length = p.length := by
  have h := congrArg String.length (splitext_concat p)
  rw [string_length_append] at h
  exact h

theorem string_append_assoc (a b c : String) : (a ++ b) ++ c = a ++ (b ++ c) := by
  apply string_eq_of_data
  simp [string_data_append, List.append_assoc]

theorem candidate_ne (p a b : String) (h : 1 ≤ a.length + b.length) :
    (((splitext p).1 ++ a) ++ b) ++ (splitext p).2 ≠ p := by
  intro heq
  have hl := congrArg String.length heq
  rw [string_length_append, string_length_append, string_length_append] at hl
  have hc := splitext_length p
  omega

/-! ### Lemmas about the fetch pipeline -/

theorem fsLookup_cons_self (p : String) (c : Bytes) (rest : List (String × Bytes)) :
    fsLookup ((p, c) :: rest) p = some c := by
  simp [fsLookup]

theorem fsLookup_cons_ne {p q : String} (c : Bytes) (rest : List (String × Bytes))
    (h : p ≠ q) : fsLookup ((p, c) :: rest) q = fsLookup rest q := by
  simp [fsLookup, h]

theorem totalSize_nil : totalSize [] = 0 := rfl

theorem totalSize_cons (c : Bytes) (r : List Bytes) :
    totalSize (c :: r) = c.length + totalSize r := by
  simp [totalSize]

theorem read_chunks_overflow (m : Nat) :
    ∀ (chunks : List Bytes) (size : Nat) (content : Bytes),
      size ≤ m → m < size + totalSize chunks →
      read_chunks m chunks size content = none := by
  intro chunks
  induction chunks with
  | nil =>
    intro size content hle hlt
    rw [totalSize_nil] at hlt
    omega
  | cons chunk rest ih =>
    intro size content hle hlt
    rw [totalSize_cons] at hlt
    by_cases he : chunk.isEmpty
    · have hlen : chunk.length = 0 := by
        cases chunk with
        | nil => rfl
        | cons a t => simp [List.isEmpty] at he
      rw [read_chunks, if_pos he]
      exact ih size content hle (by omega)
    · rw [read_chunks, if_neg he]
      by_cases hbig : m < size + chunk.length
      · rw [if_pos hbig]
      · rw [if_neg hbig]
        exact ih (size + chunk.length) (content ++ chunk) (by omega) (by omega)

theorem check_duplicate_mem {md5hex : Bytes → String} {hashes : List String}
    {content : Bytes} (h : md5hex content ∈ hashes) :
    check_duplicate md5hex hashes content = (true, hashes) := by
  simp [check_duplicate, h]

theorem check_duplicate_not_mem {md5hex : Bytes → String} {hashes : List String}
    {content : Bytes} (h : ¬ md5hex content ∈ hashes) :
    check_duplicate md5hex hashes content = (false, md5hex content :: hashes) := by
  simp [check_duplicate, h]

theorem save_phase_hashes (ext : ExternalFns) (env : FetchEnv) (actual : String)
    (content : Bytes) (st : FetcherState) :
    (save_phase ext env actual content st).2.hashes = st.hashes := by
  unfold save_phase
  split <;> rfl

theorem save_phase_directory (ext : ExternalFns) (env : FetchEnv) (actual : String)
    (content : Bytes) (st : FetcherState) :
    (save_phase ext env actual content st).2.directory = st.directory := by
  unfold save_phase
  split <;> rfl

theorem save_phase_write_ok (ext : ExternalFns) (env : FetchEnv) (actual : String)
    (content : Bytes) (st : FetcherState) (hw : env.writeOk = true) :
    save_phase ext env actual content st =
      (⟨true,
        (((("✅ Successfully saved: "
            ++ basename (resolve_path st.fs ((st.directory ++ "/")
                  ++ generate_filename ext.guessExt env.urlPath actual env.timeNow))) ++ " (")
          ++ ext.fmtSize content.length) ++ "KB)"),
        some (resolve_path st.fs ((st.directory ++ "/")
          ++ generate_filename ext.guessExt env.urlPath actual env.timeNow))⟩,
       { st with fs := (resolve_path st.fs ((st.directory ++ "/")
          ++ generate_filename ext.guessExt env.urlPath actual env.timeNow), content) :: st.fs }) := by
  simp [save_phase, hw]

theorem save_phase_write_fail (ext : ExternalFns) (env : FetchEnv) (actual : String)
    (content : Bytes) (st : FetcherState) (hw : env.writeOk = false) :
    save_phase ext env actual content st = (unexpected_result env.writeErrMsg, st) := by
  simp [save_phase, hw]

theorem fetch_image_probe_some {env : FetchEnv} {ct : String} (ext : ExternalFns)
    (st : FetcherState) (h : probe_content_type env = some ct) :
    fetch_image ext env st = get_phase ext env ct st := by
  cases hh : env.headOutcome with
  | none =>
    have hct : ct = "image/jpeg" := by
      rw [probe_content_type, hh] at h
      exact (Option.some.injEq _ _ ▸ h :).symm
    subst hct
    simp [fetch_image, hh]
  | some hhh =>
    cases hs : is_safe_content_type (hhh.contentType.getD "") with
    | false =>
      exfalso
      rw [probe_content_type, hh] at h
      simp [hs] at h
    | true =>
      cases hl : hhh.contentLength with
      | none =>
        have hct : ct = hhh.contentType.getD "" := by
          rw [probe_content_type, hh] at h
          simp [hs, hl] at h
          exact h.symm
        subst hct
        simp [fetch_image, hh, hs, hl]
      | some n =>
        by_cases hn : maxSize < n
        · exfalso
          rw [probe_content_type, hh] at h
          simp [hs, hl, hn] at h
        · have hct : ct = hhh.contentType.getD "" := by
            rw [probe_content_type, hh] at h
            simp [hs, hl, hn] at h
            exact h.symm
          subst hct
          simp [fetch_image, hh, hs, hl, hn]

theorem fetch_image_probe_none {env : FetchEnv} (ext : ExternalFns)
    (st : FetcherState) (h : probe_content_type env = none) :
    (∃ s, fetch_image ext env st = (head_bad_type_result s, st))
    ∨ fetch_image ext env st = (head_too_large_result, st) := by
  cases hh : env.headOutcome with
  | none =>
    exfalso
    rw [probe_content_type, hh] at h
    cases h
  | some hhh =>
    cases hs : is_safe_content_type (hhh.contentType.getD "") with
    | false =>
      left
      exact ⟨hhh.contentType.getD "", by simp [fetch_image, hh, hs]⟩
    | true =>
      cases hl : hhh.contentLength with
      | none =>
        exfalso
        rw [probe_content_type, hh] at h
        simp [hs, hl] at h
      | some n =>
        by_cases hn : maxSize < n
        · right
          simp [fetch_image, hh, hs, hl, hn]
        · exfalso
          rw [probe_content_type, hh] at h
          simp [hs, hl, hn] at h

theorem probe_some_safe {env : FetchEnv} {ct : String}
    (h : probe_content_type env = some ct) : is_safe_content_type ct = true := by
  cases hh : env.headOutcome with
  | none =>
    have hct : ct = "image/jpeg" := by
      rw [probe_content_type, hh] at h
      exact (Option.some.injEq _ _ ▸ h :).symm
    subst hct
    decide
  | some hhh =>
    cases hs : is_safe_content_type (hhh.contentType.getD "") with
    | false =>
      exfalso
      rw [probe_content_type, hh] at h
      simp [hs] at h
    | true =>
      cases hl : hhh.contentLength with
      | none =>
        have hct : ct = hhh.contentType.getD "" := by
          rw [probe_content_type, hh] at h
          simp [hs, hl] at h
          exact h.symm
        rw [hct]; exact hs
      | some n =>
        by_cases hn : maxSize < n
        · exfalso
          rw [probe_content_type, hh] at h
          simp [hs, hl, hn] at h
        · have hct : ct = hhh.contentType.getD "" := by
            rw [probe_content_type, hh] at h
            simp [hs, hl, hn] at h
            exact h.symm
          rw [hct]; exact hs

theorem fetch_image_retrieved {env : FetchEnv} {B : Bytes} (ext : ExternalFns)
    (st : FetcherState) (h : retrieved_content env = some B) :
    fetch_image ext env st =
      if ext.md5hex B ∈ st.hashes then (duplicate_result, st)
      else save_phase ext env (effective_content_type env) B
             { st with hashes := ext.md5hex B :: st.hashes } := by
  cases hp : probe_content_type env with
  | none =>
    exfalso
    rw [retrieved_content, hp] at h
    cases h
  | some ct =>
    cases hg : env.getOutcome with
    | success hdrs chunks =>
      cases hs : is_safe_content_type (hdrs.contentType.getD ct) with
      | false =>
        exfalso
        rw [retrieved_content, hp, hg] at h
        simp [hs] at h
      | true =>
        have hread : read_chunks maxSize chunks 0 [] = some B := by
          rw [retrieved_content, hp, hg] at h
          simpa [hs] using h
        have heff : effective_content_type env = hdrs.contentType.getD ct := by
          rw [effective_content_type, hp, hg]
        rw [fetch_image_probe_some ext st hp, heff]
        by_cases hm : ext.md5hex B ∈ st.hashes
        · rw [if_pos hm]
          simp [get_phase, hg, hs, hread, check_duplicate_mem hm]
        · rw [if_neg hm]
          simp [get_phase, hg, hs, hread, check_duplicate_not_mem hm]
    | timeout =>
      exfalso; rw [retrieved_content, hp, hg] at h; cases h
    | connectionError =>
      exfalso; rw [retrieved_content, hp, hg] at h; cases h
    | httpError s =>
      exfalso; rw [retrieved_content, hp, hg] at h; cases h
    | requestError m =>
      exfalso; rw [retrieved_content, hp, hg] at h; cases h

/-- Classification of all possible outcomes of the GET stage: a failure
leaves the filesystem alone, reports no path, and can only have grown the
hash set when the write step failed; a success records exactly one new hash
and one new file. -/
theorem get_phase_shape (ext : ExternalFns) (env : FetchEnv) (ct : String)
    (st : FetcherState) :
    (get_phase ext env ct st).2.directory = st.directory
    ∧ (((get_phase ext env ct st).1.success = false
        ∧ (get_phase ext env ct st).1.filepath = none
        ∧ (get_phase ext env ct st).2.fs = st.fs
        ∧ ((get_phase ext env ct st).2.hashes = st.hashes
           ∨ (env.writeOk = false
              ∧ ∃ hsh, (get_phase ext env ct st).2.hashes = hsh :: st.hashes)))
      ∨ ((get_phase ext env ct st).1.success = true
        ∧ ∃ hsh fp content,
            (get_phase ext env ct st).2.hashes = hsh :: st.hashes
            ∧ (get_phase ext env ct st).1.filepath = some fp
            ∧ (get_phase ext env ct st).2.fs = (fp, content) :: st.fs)) := by
  cases hg : env.getOutcome with
  | timeout => simp [get_phase, hg, timeout_result]
  | connectionError => simp [get_phase, hg, connection_result]
  | httpError s => simp [get_phase, hg, http_result]
  | requestError m => simp [get_phase, hg, request_result]
  | success hdrs chunks =>
    cases hs : is_safe_content_type (hdrs.contentType.getD ct) with
    | false => simp [get_phase, hg, hs, get_bad_type_result]
    | true =>
      cases hr : read_chunks maxSize chunks 0 [] with
      | none => simp [get_phase, hg, hs, hr, stream_too_large_result]
      | some content =>
        by_cases hm : ext.md5hex content ∈ st.hashes
        · simp [get_phase, hg, hs, hr, check_duplicate_mem hm, duplicate_result]
        · cases hw : env.writeOk with
          | false =>
            have hgp : get_phase ext env ct st =
                (unexpected_result env.writeErrMsg,
                 { st with hashes := ext.md5hex content :: st.hashes }) := by
              simp [get_phase, hg, hs, hr, check_duplicate_not_mem hm,
                save_phase_write_fail _ _ _ _ _ hw]
            rw [hgp]
            refine ⟨rfl, Or.inl ⟨rfl, rfl, rfl, Or.inr ⟨rfl, ⟨ext.md5hex content, rfl⟩⟩⟩⟩
          | true =>
            have hgp : get_phase ext env ct st =
                save_phase ext env (hdrs.contentType.getD ct) content
                  { st with hashes := ext.md5hex content :: st.hashes } := by
              simp [get_phase, hg, hs, hr, check_duplicate_not_mem hm]
            rw [hgp, save_phase_write_ok _ _ _ _ _ hw]
            refine ⟨rfl, Or.inr ⟨rfl, ⟨ext.md5hex content, _, content, rfl, rfl, rfl⟩⟩⟩

/-- The outcome classification lifted to `fetch_image`: the head stage only
adds early-failure branches that leave the state untouched. -/
theorem fetch_image_shape (ext : ExternalFns) (env : FetchEnv) (st : FetcherState) :
    (fetch_image ext env st).2.directory = st.directory
    ∧ (((fetch_image ext env st).1.success = false
        ∧ (fetch_image ext env st).1.filepath = none
        ∧ (fetch_image ext env st).2.fs = st.fs
        ∧ ((fetch_image ext env st).2.hashes = st.hashes
           ∨ (env.writeOk = false
              ∧ ∃ hsh, (fetch_image ext env st).2.hashes = hsh :: st.hashes)))
      ∨ ((fetch_image ext env st).1.success = true
        ∧ ∃ hsh fp content,
            (fetch_image ext env st).2.hashes = hsh :: st.hashes
            ∧ (fetch_image ext env st).1.filepath = some fp
            ∧ (fetch_image ext env st).2.fs = (fp, content) :: st.fs)) := by
  cases hp : probe_content_type env with
  | none =>
    rcases fetch_image_probe_none ext st hp with ⟨s, hfi⟩ | hfi
    · rw [hfi]; simp [head_bad_type_result]
    · rw [hfi]; simp [head_too_large_result]
  | some ct =>
    rw [fetch_image_probe_some ext st hp]
    exact get_phase_shape ext env ct st

/-- A failed `fetch_image` call leaves the filesystem untouched and, unless
the save step itself raised, the hash registry as well. -/
theorem fetch_image_failure (ext : ExternalFns) (env : FetchEnv) (st : FetcherState)
    (hfail : (fetch_image ext env st).1.success = false) :
    (fetch_image ext env st).1.filepath = none
    ∧ (fetch_image ext env st).2.fs = st.fs
    ∧ (env.writeOk = true → (fetch_image ext env st).2.hashes = st.hashes) := by
  rcases (fetch_image_shape ext env st).2 with ⟨_, hfp, hfs, hh⟩ | ⟨hsucc, _⟩
  · refine ⟨hfp, hfs, ?_⟩
    intro hw
    rcases hh with h | ⟨hwf, _⟩
    · exact h
    · rw [hw] at hwf; cases hwf
  · rw [hsucc] at hfail; cases hfail

/-- Hashes recorded before a `fetch_image` call are still recorded after it. -/
theorem fetch_image_hashes_mono (ext : ExternalFns) (env : FetchEnv)
    (st : FetcherState) {x : String} (hx : x ∈ st.hashes) :
    x ∈ (fetch_image ext env st).2.hashes := by
  rcases (fetch_image_shape ext env st).2 with ⟨_, _, _, hh⟩ | ⟨_, _, _, _, hh, _, _⟩
  · rcases hh with h | ⟨_, _, h⟩
    · rw [h]; exact hx
    · rw [h]; exact List.mem_cons_of_mem _ hx
  · rw [hh]; exact List.mem_cons_of_mem _ hx

/-! ### Recognizing the GET-stage unsafe-type failure by its message -/

theorem marker_not_head_bad (s : String) :
    is_bad_type_get_msg (head_bad_type_result s) = false := by
  cases s; rfl

theorem marker_not_head_too_large : is_bad_type_get_msg head_too_large_result = false := rfl

theorem marker_not_stream_too_large :
    is_bad_type_get_msg stream_too_large_result = false := rfl

theorem marker_not_duplicate : is_bad_type_get_msg duplicate_result = false := rfl

theorem marker_not_timeout : is_bad_type_get_msg timeout_result = false := rfl

theorem marker_not_connection : is_bad_type_get_msg connection_result = false := rfl

theorem marker_not_http (s : Nat) : is_bad_type_get_msg (http_result s) = false := by
  unfold http_result is_bad_type_get_msg
  generalize toString s = t
  cases t
  rfl

theorem marker_not_request (s : String) : is_bad_type_get_msg (request_result s) = false := by
  cases s; rfl

theorem marker_not_unexpected (s : String) :
    is_bad_type_get_msg (unexpected_result s) = false := by
  cases s; rfl

theorem marker_not_success (b f : String) (fp : Option String) :
    is_bad_type_get_msg
      ⟨true, (((("✅ Successfully saved: " ++ b) ++ " (") ++ f) ++ "KB)"), fp⟩ = false := by
  cases b; cases f; rfl

theorem is_bad_type_get_msg_save (ext : ExternalFns) (env : FetchEnv) (actual : String)
    (content : Bytes) (st : FetcherState) :
    is_bad_type_get_msg (save_phase ext env actual content st).1 = false := by
  cases hw : env.writeOk with
  | false => rw [save_phase_write_fail _ _ _ _ _ hw]; exact marker_not_unexpected _
  | true => rw [save_phase_write_ok _ _ _ _ _ hw]; exact marker_not_success _ _ _

/-! ### Monotonicity of the hash registry -/

theorem insertHash_mem {x h : String} {hs : List String} (hx : x ∈ hs) :
    x ∈ insertHash h hs := by
  unfold insertHash
  split
  · exact hx
  · exact List.mem_cons_of_mem _ hx

theorem load_foldl_mono (md5hex : Bytes → String) :
    ∀ (files : List (Option Bytes)) (hashes : List String) (x : String), x ∈ hashes →
      x ∈ files.foldl
        (fun hs f =>
          match f with
          | none => hs
          | some content => insertHash (md5hex content) hs)
        hashes := by
  intro files
  induction files with
  | nil => intro hashes x hx; exact hx
  | cons f rest ih =>
    intro hashes x hx
    rw [List.foldl_cons]
    apply ih
    cases f with
    | none => exact hx
    | some c => exact insertHash_mem hx

theorem load_existing_hashes_mono (md5hex : Bytes → String) (dirExists : Bool)
    (files : List (Option Bytes)) {hashes : List String} {x : String}
    (hx : x ∈ hashes) : x ∈ load_existing_hashes md5hex dirExists files hashes := by
  unfold load_existing_hashes
  split
  · exact load_foldl_mono md5hex files hashes x hx
  · exact hx

theorem check_duplicate_mono {md5hex : Bytes → String} {hashes : List String}
    {content : Bytes} {x : String} (hx : x ∈ hashes) :
    x ∈ (check_duplicate md5hex hashes content).2 := by
  simp only [check_duplicate]
  split
  · exact hx
  · exact List.mem_cons_of_mem _ hx

theorem fetch_multiple_hashes_mono (ext : ExternalFns) :
    ∀ (envs : List FetchEnv) (st : FetcherState) (x : String), x ∈ st.hashes →
      x ∈ (fetch_multiple_images ext envs st).2.hashes := by
  intro envs
  induction envs with
  | nil => intro st x hx; exact hx
  | cons e rest ih =>
    intro st x hx
    simp only [fetch_multiple_images]
    exact ih _ _ (fetch_image_hashes_mono ext e st hx)

/-! ### Structure of batch processing -/

theorem fetch_multiple_length (ext : ExternalFns) :
    ∀ (envs : List FetchEnv) (st : FetcherState),
      (fetch_multiple_images ext envs st).1.length = envs.length := by
  intro envs
  induction envs with
  | nil => intro st; rfl
  | cons e rest ih => intro st; simp [fetch_multiple_images, ih]

theorem fetch_multiple_get (ext : ExternalFns) :
    ∀ (envs : List FetchEnv) (st : FetcherState) (i : Nat) (e : FetchEnv),
      envs[i]? = some e →
      (fetch_multiple_images ext envs st).1[i]? =
        some (e.url, (fetch_image ext e (fetch_multiple_images ext (envs.take i) st).2).1) := by
  intro envs
  induction envs with
  | nil => intro st i e h; simp at h
  | cons hd tl ih =>
    intro st i e h
    cases i with
    | zero =>
      simp only [List.getElem?_cons_zero, Option.some.injEq] at h
      subst h
      simp [fetch_multiple_images, List.take_zero]
    | succ n =>
      simp only [List.getElem?_cons_succ] at h
      simp only [fetch_multiple_images, List.getElem?_cons_succ, List.take_succ_cons]
      exact ih _ n e h

theorem fetch_multiple_mem_failure (ext : ExternalFns) :
    ∀ (envs : List FetchEnv) (st : FetcherState)
      (p : String × FetchResult), p ∈ (fetch_multiple_images ext envs st).1 →
      p.2.success = false → p.2.filepath = none := by
  intro envs
  induction envs with
  | nil => intro st p hp; simp [fetch_multiple_images] at hp
  | cons e rest ih =>
    intro st p hp hfail
    simp only [fetch_multiple_images, List.mem_cons] at hp
    rcases hp with hp | hp
    · subst hp
      exact (fetch_image_failure ext e st hfail).1
    · exact ih _ p hp hfail

/-! ### Collision resolution lemmas -/

theorem resolve_path_free (fs : List (String × Bytes)) (orig : String)
    (h : fsLookup fs orig = none) : resolve_path fs orig = orig := by
  unfold resolve_path
  simp only [resolve_go]
  rw [if_neg]
  simp [pathExists, h]

theorem resolve_path_second (fs : List (String × Bytes)) (orig : String)
    (hfs : 1 ≤ fs.length)
    (h0 : pathExists fs orig = true)
    (h1 : fsLookup fs (((splitext orig).1 ++ "_" ++ toString 1) ++ (splitext orig).2) = none) :
    resolve_path fs orig = ((splitext orig).1 ++ "_" ++ toString 1) ++ (splitext orig).2 := by
  unfold resolve_path
  obtain ⟨k, hk⟩ : ∃ k, fs.length = k + 1 := ⟨fs.length - 1, by omega⟩
  rw [hk]
  simp only [resolve_go]
  rw [if_pos h0, if_neg]
  simp [pathExists, h1]

/-! ### Claims -/

/-- C1 (amended): the validator returns true exactly when the lowercased
input contains one of the seven allow-listed types as a substring; in
particular every string whose parameter-stripped, lowercased type is exactly
allow-listed is accepted, and the empty string is rejected. (The claim's
exact-match reading is refuted by `C1_counterexample`.) -/
theorem C1_validator_characterization (ct : String) :
    (is_safe_content_type ct = true ↔
      ∃ t ∈ safe_types, t.data <:+: ct.data.map Char.toLower)
    ∧ (spec_is_safe_content_type ct = true → is_safe_content_type ct = true)
    ∧ is_safe_content_type "" = false := by
  refine ⟨?_, ?_, by decide⟩
  · unfold is_safe_content_type
    rw [List.any_eq_true]
    constructor
    · rintro ⟨t, ht, hw⟩
      exact ⟨t, ht, (withinList_iff t.data (pyLower ct).data).mp hw⟩
    · rintro ⟨t, ht, hinf⟩
      exact ⟨t, ht, (withinList_iff t.data (pyLower ct).data).mpr hinf⟩
  · intro h
    have hmem : pyLower (splitSemiHead ct) ∈ safe_types := of_decide_eq_true h
    unfold is_safe_content_type
    rw [List.any_eq_true]
    refine ⟨_, hmem, ?_⟩
    apply withinList_of_startsList
    exact startsList_takeWhile_map Char.toLower (fun c => !(c == ';')) ct.data

/-- C1 counterexample: `notimage/png` has a stripped type that is not on the
allow-list, yet the validator accepts it (substring containment, not exact
match), refuting the claim's only-if direction. -/
theorem C1_counterexample :
    is_safe_content_type "notimage/png" = true
    ∧ spec_is_safe_content_type "notimage/png" = false := by
  exact ⟨by decide, by decide⟩

/-- C1 witness: the amended theorem applied to a cased, parameterized
allow-listed type. -/
theorem C1_witness : is_safe_content_type "IMAGE/PNG; charset=utf-8" = true :=
  (C1_validator_characterization "IMAGE/PNG; charset=utf-8").2.1 (by decide)

/-- C2 (amended): when the full GET response declares no content-type, the
re-validation at line 123 runs on the head-stage type (the assumed default
`image/jpeg` when the probe failed, else the probe's declared type, which
already passed validation), so the call never produces the GET-stage
UnsafeType failure — contrary to the claim that a missing type fails there.
(The claim is refuted concretely by `C2_counterexample`.) -/
theorem C2_missing_get_content_type (ext : ExternalFns) (env : FetchEnv)
    (st : FetcherState) (hdrs : HttpHeaders) (chunks : List Bytes)
    (hget : env.getOutcome = GetOutcome.success hdrs chunks)
    (hct : hdrs.contentType = none) :
    is_bad_type_get_msg (fetch_image ext env st).1 = false := by
  cases hp : probe_content_type env with
  | none =>
    rcases fetch_image_probe_none ext st hp with ⟨s, hfi⟩ | hfi
    · rw [hfi]; exact marker_not_head_bad s
    · rw [hfi]; exact marker_not_head_too_large
  | some ct =>
    rw [fetch_image_probe_some ext st hp]
    have hsafe : is_safe_content_type (hdrs.contentType.getD ct) = true := by
      rw [hct]; exact probe_some_safe hp
    cases hr : read_chunks maxSize chunks 0 [] with
    | none => simp [get_phase, hget, hsafe, hr, marker_not_stream_too_large]
    | some content =>
      by_cases hm : ext.md5hex content ∈ st.hashes
      · simp [get_phase, hget, hsafe, hr, check_duplicate_mem hm, marker_not_duplicate]
      · have hgp : get_phase ext env ct st =
            save_phase ext env (hdrs.contentType.getD ct) content
              { st with hashes := ext.md5hex content :: st.hashes } := by
          simp [get_phase, hget, hsafe, hr, check_duplicate_not_mem hm]
        rw [hgp]
        exact is_bad_type_get_msg_save ext env _ content _

/-- C2 counterexample: a URL whose probe fails and whose GET response has no
content-type header; the claim demands an UnsafeType failure, but the fetch
succeeds. -/
theorem C2_counterexample :
    envC2.getOutcome = GetOutcome.success ⟨none, none⟩ [[1, 2, 3]]
    ∧ (fetch_image extW envC2 stEmpty).1.success = true := by
  exact ⟨rfl, by decide⟩

/-- C2 witness: the amended theorem applied to the concrete no-content-type
environment. -/
theorem C2_witness : is_bad_type_get_msg (fetch_image extW envC2 stEmpty).1 = false :=
  C2_missing_get_content_type extW envC2 stEmpty ⟨none, none⟩ [[1, 2, 3]] rfl rfl

/-- C3 (amended): a failing `fetch_image` call writes no file, and leaves
the hash registry unchanged provided the failure did not occur in the save
step; a save-step failure leaves behind the hash that `_check_duplicate`
inserted before the write (see `C3_counterexample`), so the claim's
"registry exactly as before on every failure" and "inserted after the bytes
are written" are both too strong. -/
theorem C3_failure_registry (ext : ExternalFns) (env : FetchEnv) (st : FetcherState)
    (hfail : (fetch_image ext env st).1.success = false) :
    (fetch_image ext env st).2.fs = st.fs
    ∧ (env.writeOk = true → (fetch_image ext env st).2.hashes = st.hashes) := by
  have h := fetch_image_failure ext env st hfail
  exact ⟨h.2.1, h.2.2⟩

/-- C3 counterexample: fresh content whose save step raises; the call fails
yet the registry has grown (the hash was inserted before the write). -/
theorem C3_counterexample :
    (fetch_image extW envC3 stEmpty).1.success = false
    ∧ (fetch_image extW envC3 stEmpty).2.hashes ≠ stEmpty.hashes := by
  exact ⟨by decide, by decide⟩

/-- C3 witness: the amended theorem applied to a fetch that fails at the
probe stage with the write step healthy. -/
theorem C3_witness :
    (fetch_image extW envC3w stEmpty).2.fs = stEmpty.fs
    ∧ (envC3w.writeOk = true →
        (fetch_image extW envC3w stEmpty).2.hashes = stEmpty.hashes) :=
  C3_failure_registry extW envC3w stEmpty (by decide)

/-- C4: when two fetch attempts both retrieve the same byte string, the
second call reports the duplicate failure, changes nothing (no second file,
registry untouched): after the first call the content hash is recorded, so
the second call's duplicate check fires. -/
theorem C4_second_fetch_duplicate (ext : ExternalFns) (env1 env2 : FetchEnv)
    (st : FetcherState) (B : Bytes)
    (h1 : retrieved_content env1 = some B)
    (h2 : retrieved_content env2 = some B) :
    (fetch_image ext env2 (fetch_image ext env1 st).2).1 = duplicate_result
    ∧ (fetch_image ext env2 (fetch_image ext env1 st).2).2 =
        (fetch_image ext env1 st).2 := by
  have hmem : ext.md5hex B ∈ (fetch_image ext env1 st).2.hashes := by
    rw [fetch_image_retrieved ext st h1]
    by_cases hm : ext.md5hex B ∈ st.hashes
    · rw [if_pos hm]; exact hm
    · rw [if_neg hm, save_phase_hashes]
      exact List.mem_cons_self _ _
  rw [fetch_image_retrieved ext _ h2, if_pos hmem]
  exact ⟨rfl, rfl⟩

/-- C4 witness: two concrete fetches of the same single byte; the second is
the duplicate failure and leaves the state of the first call intact. -/
theorem C4_witness :
    (fetch_image extW envC4b (fetch_image extW envC4a stEmpty).2).1 = duplicate_result
    ∧ (fetch_image extW envC4b (fetch_image extW envC4a stEmpty).2).2 =
        (fetch_image extW envC4a stEmpty).2 :=
  C4_second_fetch_duplicate extW envC4a envC4b stEmpty [9] (by decide) (by decide)

/-- C5: a fetch that reaches the streaming stage and whose chunk stream
holds more than 50 MiB in total aborts with the streaming too-large failure
and leaves the fetcher state (files and registry) exactly as it was. -/
theorem C5_stream_too_large (ext : ExternalFns) (env : FetchEnv) (st : FetcherState)
    (ct : String) (hdrs : HttpHeaders) (chunks : List Bytes)
    (hp : probe_content_type env = some ct)
    (hg : env.getOutcome = GetOutcome.success hdrs chunks)
    (hs : is_safe_content_type (hdrs.contentType.getD ct) = true)
    (hbig : maxSize < totalSize chunks) :
    fetch_image ext env st = (stream_too_large_result, st) := by
  rw [fetch_image_probe_some ext st hp]
  have hnone : read_chunks maxSize chunks 0 [] = none :=
    read_chunks_overflow maxSize chunks 0 [] (Nat.zero_le _) (by simpa using hbig)
  simp [get_phase, hg, hs, hnone]

/-- C5 witness: a single chunk of `maxSize + 1` bytes triggers the abort
without any file being created. -/
theorem C5_witness : fetch_image extW envC5 stEmpty = (stream_too_large_result, stEmpty) :=
  C5_stream_too_large extW envC5 stEmpty "image/jpeg" ⟨some "image/png", none⟩
    [List.replicate (maxSize + 1) 0] rfl rfl (by decide)
    (by simp [totalSize])

/-- C7: batch fetching returns one result per input URL, in input order; the
i-th result is exactly the single-URL result for the i-th input run in the
state reached after the first i fetches (so an earlier failure never stops
later URLs), and every failed result carries no path. -/
theorem C7_batch_results (ext : ExternalFns) (envs : List FetchEnv) (st : FetcherState) :
    (fetch_multiple_images ext envs st).1.length = envs.length
    ∧ (∀ (i : Nat) (e : FetchEnv), envs[i]? = some e →
        (fetch_multiple_images ext envs st).1[i]? =
          some (e.url, (fetch_image ext e (fetch_multiple_images ext (envs.take i) st).2).1))
    ∧ (∀ p : String × FetchResult, p ∈ (fetch_multiple_images ext envs st).1 →
        p.2.success = false → p.2.filepath = none) := by
  refine ⟨fetch_multiple_length ext envs st, ?_, ?_⟩
  · intro i e h
    exact fetch_multiple_get ext envs st i e h
  · intro p hp hfail
    exact fetch_multiple_mem_failure ext envs st p hp hfail

/-- C7 witness: a concrete two-URL batch (one success, one timeout) has two
results, the second being the result of its own fetch. -/
theorem C7_witness :
    (fetch_multiple_images extW [envC7a, envC7b] stEmpty).1.length = 2
    ∧ (fetch_multiple_images extW [envC7a, envC7b] stEmpty).1[1]? =
        some (envC7b.url,
          (fetch_image extW envC7b
            (fetch_multiple_images extW ([envC7a, envC7b].take 1) stEmpty).2).1) :=
  ⟨(C7_batch_results extW [envC7a, envC7b] stEmpty).1,
   (C7_batch_results extW [envC7a, envC7b] stEmpty).2.1 1 envC7b (by decide)⟩

/-- C8: when the HEAD probe raises, `fetch_image` does not fail there: it
continues into the GET stage with the assumed default type `image/jpeg`, and
the GET response's own headers override that default — in particular a
non-image type declared by the GET response produces the GET-stage
UnsafeType failure. -/
theorem C8_probe_failure_fallback (ext : ExternalFns) (env : FetchEnv)
    (st : FetcherState) (hhead : env.headOutcome = none) :
    fetch_image ext env st = get_phase ext env "image/jpeg" st
    ∧ (∀ (hdrs : HttpHeaders) (chunks : List Bytes) (t : String),
        env.getOutcome = GetOutcome.success hdrs chunks →
        hdrs.contentType = some t → is_safe_content_type t = false →
        fetch_image ext env st = (get_bad_type_result t, st)) := by
  constructor
  · simp [fetch_image, hhead]
  · intro hdrs chunks t hg hct hsf
    simp [fetch_image, hhead, get_phase, hg, hct, hsf]

/-- C8 witness: with a failed probe and a GET response declaring
`application/pdf`, the fetch proceeds to the GET stage and fails there. -/
theorem C8_witness :
    fetch_image extW envC8 stEmpty = (get_bad_type_result "application/pdf", stEmpty) :=
  (C8_probe_failure_fallback extW envC8 stEmpty rfl).2
    ⟨some "application/pdf", none⟩ [[1]] "application/pdf" rfl rfl (by decide)

/-- C9: filename derivation. A URL path whose base name contains a dot keeps
that base name verbatim; otherwise the name is `image_<epoch>` plus the
extension mapped from the (parameter-stripped) effective content type,
defaulting to `.jpg`. -/
theorem C9_filename_derivation (guessExt : String → Option String)
    (urlPath ct : String) (t : Nat) :
    (pyIn "." (basename urlPath) = true →
      generate_filename guessExt urlPath ct t = basename urlPath)
    ∧ (basename urlPath = "" ∨ pyIn "." (basename urlPath) = false →
      generate_filename guessExt urlPath ct t =
        ("image_" ++ toString t) ++ ((guessExt (splitSemiHead ct)).getD ".jpg")) := by
  constructor
  · intro hdot
    have hne : ¬ (basename urlPath = "" ∨ pyIn "." (basename urlPath) = false) := by
      rintro (he | hf)
      · rw [he] at hdot
        exact absurd hdot (by decide)
      · rw [hf] at hdot
        cases hdot
    simp only [generate_filename, get_file_extension]
    rw [if_neg hne, if_pos hdot]
    exact splitext_concat _
  · intro hcond
    have hf : pyIn "." (basename urlPath) = false := by
      rcases hcond with he | hf
      · rw [he]; decide
      · exact hf
    simp only [generate_filename, get_file_extension]
    rw [if_pos hcond, if_neg (by simp [hf])]

/-- C9 witness: both branches on concrete URLs — a dotted base name is kept,
a dotless one gets the synthesized name with the mapped extension. -/
theorem C9_witness :
    generate_filename extW.guessExt "/imgs/test.png" "image/jpeg" 7 = "test.png"
    ∧ generate_filename extW.guessExt "/imgs/photo" "image/png" 7 = "image_7.png" := by
  constructor
  · exact (C9_filename_derivation extW.guessExt "/imgs/test.png" "image/jpeg" 7).1
      (by decide)
  · exact ((C9_filename_derivation extW.guessExt "/imgs/photo" "image/png" 7).2
      (Or.inr (by decide))).trans (by decide)

/-- C6: collision resolution. Two successful fetches that derive the same
filename F with different, non-duplicate contents end up saved under
distinct names: the first at `dir/F`, the second at the `_1`-suffixed
variant, and no pre-existing file is overwritten. -/
theorem C6_collision_resolution (ext : ExternalFns) (env1 env2 : FetchEnv)
    (st : FetcherState) (F : String) (c1 c2 : Bytes)
    (h1 : retrieved_content env1 = some c1)
    (h2 : retrieved_content env2 = some c2)
    (hw1 : env1.writeOk = true) (hw2 : env2.writeOk = true)
    (hn1 : generate_filename ext.guessExt env1.urlPath
        (effective_content_type env1) env1.timeNow = F)
    (hn2 : generate_filename ext.guessExt env2.urlPath
        (effective_content_type env2) env2.timeNow = F)
    (hf1 : ¬ ext.md5hex c1 ∈ st.hashes)
    (hf2 : ¬ ext.md5hex c2 ∈ ext.md5hex c1 :: st.hashes)
    (hp0 : fsLookup st.fs ((st.directory ++ "/") ++ F) = none)
    (hp1 : fsLookup st.fs
        (((splitext ((st.directory ++ "/") ++ F)).1 ++ "_" ++ toString 1)
          ++ (splitext ((st.directory ++ "/") ++ F)).2) = none) :
    (fetch_image ext env1 st).1.success = true
    ∧ (fetch_image ext env1 st).1.filepath = some ((st.directory ++ "/") ++ F)
    ∧ (fetch_image ext env2 (fetch_image ext env1 st).2).1.success = true
    ∧ (fetch_image ext env2 (fetch_image ext env1 st).2).1.filepath =
        some (((splitext ((st.directory ++ "/") ++ F)).1 ++ "_" ++ toString 1)
          ++ (splitext ((st.directory ++ "/") ++ F)).2)
    ∧ fsLookup (fetch_image ext env2 (fetch_image ext env1 st).2).2.fs
        ((st.directory ++ "/") ++ F) = some c1
    ∧ fsLookup (fetch_image ext env2 (fetch_image ext env1 st).2).2.fs
        (((splitext ((st.directory ++ "/") ++ F)).1 ++ "_" ++ toString 1)
          ++ (splitext ((st.directory ++ "/") ++ F)).2) = some c2
    ∧ (∀ (q : String) (c : Bytes), fsLookup st.fs q = some c →
        fsLookup (fetch_image ext env2 (fetch_image ext env1 st).2).2.fs q = some c) := by
  have hPne : (((splitext ((st.directory ++ "/") ++ F)).1 ++ "_" ++ toString 1)
      ++ (splitext ((st.directory ++ "/") ++ F)).2) ≠ (st.directory ++ "/") ++ F :=
    candidate_ne _ "_" (toString 1) (by decide)
  have e1 : fetch_image ext env1 st =
      (⟨true,
        (((("✅ Successfully saved: " ++ basename ((st.directory ++ "/") ++ F)) ++ " (")
          ++ ext.fmtSize c1.length) ++ "KB)"),
        some ((st.directory ++ "/") ++ F)⟩,
       { directory := st.directory, hashes := ext.md5hex c1 :: st.hashes,
         fs := ((st.directory ++ "/") ++ F, c1) :: st.fs }) := by
    rw [fetch_image_retrieved ext st h1, if_neg hf1,
      save_phase_write_ok _ _ _ _ _ hw1]
    simp only [hn1]
    rw [resolve_path_free st.fs _ hp0]
  have e2 : fetch_image ext env2 (fetch_image ext env1 st).2 =
      (⟨true,
        (((("✅ Successfully saved: "
            ++ basename (((splitext ((st.directory ++ "/") ++ F)).1 ++ "_" ++ toString 1)
              ++ (splitext ((st.directory ++ "/") ++ F)).2)) ++ " (")
          ++ ext.fmtSize c2.length) ++ "KB)"),
        some (((splitext ((st.directory ++ "/") ++ F)).1 ++ "_" ++ toString 1)
          ++ (splitext ((st.directory ++ "/") ++ F)).2)⟩,
       { directory := st.directory,
         hashes := ext.md5hex c2 :: ext.md5hex c1 :: st.hashes,
         fs := ((((splitext ((st.directory ++ "/") ++ F)).1 ++ "_" ++ toString 1)
            ++ (splitext ((st.directory ++ "/") ++ F)).2), c2)
          :: ((st.directory ++ "/") ++ F, c1) :: st.fs }) := by
    rw [e1]
    rw [fetch_image_retrieved ext _ h2, if_neg hf2,
      save_phase_write_ok _ _ _ _ _ hw2]
    simp only [hn2]
    rw [resolve_path_second (((st.directory ++ "/") ++ F, c1) :: st.fs) _
      (by simp) (by simp [pathExists, fsLookup_cons_self])
      (by rw [fsLookup_cons_ne _ _ (Ne.symm hPne)]; exact hp1)]
  refine ⟨by rw [e1], by rw [e1], by rw [e2], by rw [e2], ?_, ?_, ?_⟩
  · rw [e2]
    rw [fsLookup_cons_ne _ _ hPne]
    exact fsLookup_cons_self _ _ _
  · rw [e2]
    exact fsLookup_cons_self _ _ _
  · intro q c hq
    have hq0 : (st.directory ++ "/") ++ F ≠ q := by
      intro hqe
      rw [← hqe] at hq
      rw [hp0] at hq
      cases hq
    have hq1 : (((splitext ((st.directory ++ "/") ++ F)).1 ++ "_" ++ toString 1)
        ++ (splitext ((st.directory ++ "/") ++ F)).2) ≠ q := by
      intro hqe
      rw [← hqe] at hq
      rw [hp1] at hq
      cases hq
    rw [e2, fsLookup_cons_ne _ _ hq1, fsLookup_cons_ne _ _ hq0]
    exact hq

/-- C6 witness: two concrete URLs both deriving `test.png` with contents
`[1]` and `[2]`; the second lands at the `_1`-suffixed path and both files
are present afterwards. -/
theorem C6_witness :
    (fetch_image extW envC6a stEmpty).1.filepath =
      some (("Fetched_Images" ++ "/") ++ "test.png")
    ∧ (fetch_image extW envC6b (fetch_image extW envC6a stEmpty).2).1.filepath =
        some (((splitext (("Fetched_Images" ++ "/") ++ "test.png")).1 ++ "_" ++ toString 1)
          ++ (splitext (("Fetched_Images" ++ "/") ++ "test.png")).2)
    ∧ fsLookup (fetch_image extW envC6b (fetch_image extW envC6a stEmpty).2).2.fs
        (("Fetched_Images" ++ "/") ++ "test.png") = some [1]
    ∧ fsLookup (fetch_image extW envC6b (fetch_image extW envC6a stEmpty).2).2.fs
        (((splitext (("Fetched_Images" ++ "/") ++ "test.png")).1 ++ "_" ++ toString 1)
          ++ (splitext (("Fetched_Images" ++ "/") ++ "test.png")).2) = some [2] := by
  have h := C6_collision_resolution extW envC6a envC6b stEmpty "test.png" [1] [2]
    (by decide) (by decide) rfl rfl (by decide) (by decide)
    (by decide) (by decide) rfl rfl
  exact ⟨h.2.1, h.2.2.2.1, h.2.2.2.2.1, h.2.2.2.2.2.1⟩

/-- C10: the hash registry only grows — a hash recorded before the startup
scan, a duplicate check, a single fetch, or a batch fetch, is still recorded
after it. -/
theorem C10_registry_monotone (ext : ExternalFns) (env : FetchEnv)
    (envs : List FetchEnv) (st : FetcherState) (dirExists : Bool)
    (files : List (Option Bytes)) (content : Bytes) (x : String)
    (hx : x ∈ st.hashes) :
    x ∈ load_existing_hashes ext.md5hex dirExists files st.hashes
    ∧ x ∈ (check_duplicate ext.md5hex st.hashes content).2
    ∧ x ∈ (fetch_image ext env st).2.hashes
    ∧ x ∈ (fetch_multiple_images ext envs st).2.hashes := by
  exact ⟨load_existing_hashes_mono ext.md5hex dirExists files hx,
    check_duplicate_mono hx,
    fetch_image_hashes_mono ext env st hx,
    fetch_multiple_hashes_mono ext envs st x hx⟩

/-- C10 witness: the seeded hash survives each operation on concrete
inputs. -/
theorem C10_witness :
    "seed" ∈ load_existing_hashes extW.md5hex true [some [4], none] stSeed.hashes
    ∧ "seed" ∈ (check_duplicate extW.md5hex stSeed.hashes [5]).2
    ∧ "seed" ∈ (fetch_image extW envC10 stSeed).2.hashes
    ∧ "seed" ∈ (fetch_multiple_images extW [envC10] stSeed).2.hashes :=
  C10_registry_monotone extW envC10 [envC10] stSeed true [some [4], none] [5] "seed"
    (by decide)

end UbuntuFetcher
